import Mathlib

/-!
Verification of the real-time log dashboard core (`src/App.jsx`).

The definitions below are a shallow embedding of the state and handlers of
the single React component: `logMatchesFilters`, `applyFilters`, the
`newLog` / `statsUpdate` socket handlers, the visible-slice recompute
effect, the snapshot fetch success / failure paths, and the filter / page
change handlers.  JavaScript strings become `String`, arrays become
`List`, and `Array.prototype.slice(0, e)` (whose end index may be
negative) is modelled by `jsSlice` over `Int`.  The `limit` field, a
positive integer per the data model (the UI feeds `"25" | "50" | "100"`,
coerced numerically by JS), is modelled as `Nat`.
-/

/-- One structured log entry as received on the wire
(`{_id, timestamp, level, service, message}`). -/
structure LogRecord where
  id : Nat
  timestamp : Nat
  level : String
  service : String
  message : String
deriving DecidableEq, Repr

/-- The active filter selection held in component state
(`level/service/search/limit/page`). -/
structure FilterSpec where
  level : String
  service : String
  search : String
  limit : Nat
  page : Nat
deriving DecidableEq, Repr

/-- Aggregate statistics snapshot as displayed (`INFO/WARN/ERROR/total/errorRate`). -/
structure Stats where
  info : Nat
  warn : Nat
  error : Nat
  total : Nat
  errorRate : Int
deriving DecidableEq, Repr

/-- Pagination metadata as last reported by a REST response. -/
structure Pagination where
  page : Nat
  pages : Nat
  total : Nat
deriving DecidableEq, Repr

/-- Boolean test that `p` is an initial segment of the second list
(model of the prefix comparison underlying JS `String.prototype.includes`). -/
def leadsWith : List Char → List Char → Bool
  | [], _ => true
  | _ :: _, [] => false
  | a :: as, b :: bs => a == b && leadsWith as bs

/-- Model of JS `hay.includes(needle)` over character lists: the needle
occurs contiguously somewhere in the haystack. -/
def containsSub (needle : List Char) : List Char → Bool
  | [] => needle.isEmpty
  | c :: t => leadsWith needle (c :: t) || containsSub needle t

/-- Model of JS `hay.includes(needle)` on strings. -/
def strIncludes (hay needle : String) : Bool :=
  containsSub needle.data hay.data

/-- `logMatchesFilters` (App.jsx lines 51-63): a record passes the active
filters; empty filter fields impose no constraint. -/
def logMatchesFilters (filters : FilterSpec) (log : LogRecord) : Bool :=
  if filters.level != "" && log.level != filters.level then false
  else if filters.service != "" && log.service != filters.service then false
  else if filters.search != "" &&
      !(strIncludes log.message.toLower filters.search.toLower) then false
  else true

/-- `applyFilters` (App.jsx lines 66-74): returns the list unchanged when no
filter field is set, otherwise filters by `logMatchesFilters`. -/
def applyFilters (filters : FilterSpec) (logsToFilter : List LogRecord) : List LogRecord :=
  if filters.level == "" && filters.service == "" && filters.search == "" then
    logsToFilter
  else
    logsToFilter.filter (logMatchesFilters filters)

/-- Model of JS `arr.slice(0, e)` where the end index is an `Int`: a
negative end counts back from the end of the array. -/
def jsSlice (l : List α) (e : Int) : List α :=
  if 0 ≤ e then l.take e.toNat else l.take (l.length - (-e).toNat)

/-- The component state relevant to the claims: the `useState` cells of
App.jsx lines 21-40. -/
structure AppState where
  logs : List LogRecord
  filteredLogs : List LogRecord
  stats : Stats
  filters : FilterSpec
  loading : Bool
  realTimeEnabled : Bool
  pagination : Pagination
deriving Repr

/-- The visible-slice recompute effect (App.jsx lines 106-109): after any
change to `logs` or `filters`, React reruns this effect, setting
`filteredLogs := applyFilters(logs).slice(0, limit)`. -/
def settle (s : AppState) : AppState :=
  { s with filteredLogs := (applyFilters s.filters s.logs).take s.filters.limit }

/-- The `newLog` socket handler (App.jsx lines 80-93): when the real-time
toggle is on, prepend to the raw logs unconditionally and, when the record
matches the current filters, also prepend into the visible list bounded by
`limit` via `prev.slice(0, filters.limit - 1)`. -/
def newLogHandler (s : AppState) (newLog : LogRecord) : AppState :=
  if s.realTimeEnabled then
    let s1 := { s with logs := newLog :: s.logs }
    if logMatchesFilters s.filters newLog then
      { s1 with filteredLogs :=
          newLog :: jsSlice s.filteredLogs ((s.filters.limit : Int) - 1) }
    else s1
  else s

/-- The `statsUpdate` socket handler (App.jsx lines 95-97): replace the
displayed stats, with no gating on the real-time toggle. -/
def statsUpdateHandler (s : AppState) (newStats : Stats) : AppState :=
  { s with stats := newStats }

/-- A successful `GET /logs` response body. -/
structure FetchResponse where
  logs : List LogRecord
  pagination : Pagination
deriving Repr

/-- The success path of `fetchLogs` (App.jsx lines 121-126, 130): the
response page replaces raw logs, visible logs and pagination, and the
`finally` block clears the loading flag. -/
def fetchSuccess (s : AppState) (resp : FetchResponse) : AppState :=
  { s with
    logs := resp.logs
    filteredLogs := resp.logs
    pagination := resp.pagination
    loading := false }

/-- The failure path of `fetchLogs` (App.jsx lines 127-131): the error is
logged, the `finally` block clears the loading flag, and no state cell
other than `loading` is written. -/
def fetchFailure (s : AppState) : AppState :=
  { s with loading := false }

/-- A change to one `FilterSpec` field other than `page`, as produced by
the four filter controls wired to `handleFilterChange`. -/
inductive FilterChange where
  | setLevel (v : String)
  | setService (v : String)
  | setSearch (v : String)
  | setLimit (v : Nat)
deriving Repr

/-- `handleFilterChange` (App.jsx lines 160-166):
`setFilters(prev => ({...prev, [key]: value, page: 1}))`. -/
def handleFilterChange (prev : FilterSpec) : FilterChange → FilterSpec
  | .setLevel v => { prev with level := v, page := 1 }
  | .setService v => { prev with service := v, page := 1 }
  | .setSearch v => { prev with search := v, page := 1 }
  | .setLimit v => { prev with limit := v, page := 1 }

/-- `handlePageChange` (App.jsx lines 169-171):
`setFilters(prev => ({...prev, page: newPage}))`. -/
def handlePageChange (prev : FilterSpec) (newPage : Nat) : FilterSpec :=
  { prev with page := newPage }

/-- The state transitions of the component that touch `logs`,
`filteredLogs` or `filters`: filter change, page change, snapshot arrival,
pushed record, stats message. -/
inductive Transition where
  | filterChange (c : FilterChange)
  | pageChange (p : Nat)
  | snapshot (resp : FetchResponse)
  | push (r : LogRecord)
  | statsMsg (st : Stats)
deriving Repr

/-- One raw transition of the component, before React reruns effects. -/
def step (s : AppState) : Transition → AppState
  | .filterChange c => { s with filters := handleFilterChange s.filters c }
  | .pageChange p => { s with filters := handlePageChange s.filters p }
  | .snapshot resp => fetchSuccess s resp
  | .push r => newLogHandler s r
  | .statsMsg st => statsUpdateHandler s st

/-- A transition followed by the recompute effect: every transition above
writes `logs` or `filters` (or neither cell relevant), and the effect at
lines 106-109 depends on `[logs, filters, applyFilters]`, so after React
settles the visible slice has been recomputed. -/
def stepSettled (s : AppState) (t : Transition) : AppState :=
  settle (step s t)

/-! ## Helper lemmas -/

/-- A chain of early-return guards is the conjunction of the negated guards. -/
theorem guard_chain (a b c : Bool) :
    (if a then false else if b then false else if c then false else true) =
      (!a && !b && !c) := by
  cases a <;> cases b <;> cases c <;> rfl

/-- `logMatchesFilters` as a single Boolean conjunction. -/
theorem logMatchesFilters_eq_and (F : FilterSpec) (r : LogRecord) :
    logMatchesFilters F r =
      (!(F.level != "" && r.level != F.level) &&
       !(F.service != "" && r.service != F.service) &&
       !(F.search != "" &&
          !(strIncludes r.message.toLower F.search.toLower))) := by
  unfold logMatchesFilters
  exact guard_chain _ _ _

/-- When no filter field is set, every record matches. -/
theorem matches_of_noActive (F : FilterSpec) (r : LogRecord)
    (h : (F.level == "" && F.service == "" && F.search == "") = true) :
    logMatchesFilters F r = true := by
  simp only [Bool.and_eq_true, beq_iff_eq] at h
  obtain ⟨⟨h1, h2⟩, h3⟩ := h
  simp [logMatchesFilters, h1, h2, h3]

/-- The no-active-filter shortcut of `applyFilters` agrees with filtering by
the predicate, so `applyFilters` is always a plain `List.filter`. -/
theorem applyFilters_eq_filter (F : FilterSpec) (l : List LogRecord) :
    applyFilters F l = l.filter (logMatchesFilters F) := by
  unfold applyFilters
  by_cases h : (F.level == "" && F.service == "" && F.search == "") = true
  · rw [if_pos h]
    exact (List.filter_eq_self.mpr (fun a _ => matches_of_noActive F a h)).symm
  · rw [if_neg h]

/-- Filtering after prepending a matching record keeps it in front. -/
theorem applyFilters_cons_of_match (F : FilterSpec) (r : LogRecord)
    (l : List LogRecord) (h : logMatchesFilters F r = true) :
    applyFilters F (r :: l) = r :: applyFilters F l := by
  rw [applyFilters_eq_filter, applyFilters_eq_filter]
  simp [List.filter_cons, h]

/-- Filtering after prepending a non-matching record drops it. -/
theorem applyFilters_cons_of_not_match (F : FilterSpec) (r : LogRecord)
    (l : List LogRecord) (h : logMatchesFilters F r = false) :
    applyFilters F (r :: l) = applyFilters F l := by
  rw [applyFilters_eq_filter, applyFilters_eq_filter]
  simp [List.filter_cons, h]

/-- On a nonnegative end index, `jsSlice` is `List.take`. -/
theorem jsSlice_nonneg (l : List α) (e : Int) (h : 0 ≤ e) :
    jsSlice l e = l.take e.toNat := by
  simp [jsSlice, h]

/-! ## Claim theorems -/

/-- Claim C1: after any state transition settles (filter change, page
change, new snapshot, push event), the visible slice `filteredLogs` equals
the filter predicate applied to the current full history `logs` in
newest-first order, truncated to `filters.limit` entries. -/
theorem visible_slice_invariant (s : AppState) (t : Transition) :
    (stepSettled s t).filteredLogs =
      ((stepSettled s t).logs.filter
        (logMatchesFilters (stepSettled s t).filters)).take
        (stepSettled s t).filters.limit := by
  simp [stepSettled, settle, applyFilters_eq_filter]

/-- Claim C3: `logMatchesFilters R F` is true iff R satisfies every set
field of F — level and service by exact equality when set, search as a
case-insensitive substring of the message when set, unset fields imposing
no constraint, all combined conjunctively. -/
theorem logMatchesFilters_correct (F : FilterSpec) (r : LogRecord) :
    logMatchesFilters F r = true ↔
      ((F.level ≠ "" → r.level = F.level) ∧
       (F.service ≠ "" → r.service = F.service) ∧
       (F.search ≠ "" →
          strIncludes r.message.toLower F.search.toLower = true)) := by
  rw [logMatchesFilters_eq_and]
  simp [Bool.and_eq_true, bne_iff_ne]
  tauto

/-- Claim C4: a successful snapshot fetch fully replaces the full history,
the visible set and the pagination metadata with the returned page; in
particular records accumulated from push events before the response and
absent from the response are discarded. -/
theorem snapshot_replaces_all (s : AppState) (resp : FetchResponse) :
    (fetchSuccess s resp).logs = resp.logs ∧
    (fetchSuccess s resp).filteredLogs = resp.logs ∧
    (fetchSuccess s resp).pagination = resp.pagination :=
  ⟨rfl, rfl, rfl⟩

/-- Claim C5: a `newLog` event arriving while the real-time toggle is
disabled is dropped entirely — the whole state is unchanged and nothing is
queued. -/
theorem newLog_dropped_when_disabled (s : AppState) (r : LogRecord)
    (h : s.realTimeEnabled = false) :
    newLogHandler s r = s := by
  simp [newLogHandler, h]

/-- Claim C6: a `newLog` event arriving while the real-time toggle is
enabled is prepended to the full history unconditionally; a record that
does not match the active filter enters full history but leaves the
settled visible slice unchanged. -/
theorem newLog_prepend_unconditional (s : AppState) (r : LogRecord)
    (hrt : s.realTimeEnabled = true) :
    (newLogHandler s r).logs = r :: s.logs ∧
    (logMatchesFilters s.filters r = false →
      (settle (newLogHandler s r)).filteredLogs = (settle s).filteredLogs) := by
  constructor
  · by_cases hm : logMatchesFilters s.filters r = true <;>
      simp [newLogHandler, hrt, hm]
  · intro hm
    simp [newLogHandler, hrt, hm, settle,
      applyFilters_cons_of_not_match _ _ _ hm]

/-- Claim C8: on snapshot-fetch failure the loading flag is cleared and the
previously displayed data — full history, visible slice, pagination, stats
and filters — is left unchanged; no partial update occurs. -/
theorem fetch_failure_no_partial_update (s : AppState) :
    (fetchFailure s).logs = s.logs ∧
    (fetchFailure s).filteredLogs = s.filteredLogs ∧
    (fetchFailure s).pagination = s.pagination ∧
    (fetchFailure s).stats = s.stats ∧
    (fetchFailure s).filters = s.filters ∧
    (fetchFailure s).loading = false :=
  ⟨rfl, rfl, rfl, rfl, rfl, rfl⟩

/-- Claim C9: changing any `FilterSpec` field other than `page` (level,
service, search or limit) resets `page` to 1, sets the changed field to
the new value and preserves every other field. -/
theorem filter_change_resets_page (f : FilterSpec) (v : String) (n : Nat) :
    handleFilterChange f (FilterChange.setLevel v) =
      { f with level := v, page := 1 } ∧
    handleFilterChange f (FilterChange.setService v) =
      { f with service := v, page := 1 } ∧
    handleFilterChange f (FilterChange.setSearch v) =
      { f with search := v, page := 1 } ∧
    handleFilterChange f (FilterChange.setLimit n) =
      { f with limit := n, page := 1 } :=
  ⟨rfl, rfl, rfl, rfl⟩

/-- Claim C10: a `statsUpdate` message fully replaces the displayed stats
whatever the value of the real-time toggle — the gating applied to
`newLog` does not apply to stats updates. -/
theorem stats_update_unconditional (s : AppState) (ns : Stats) (b : Bool) :
    statsUpdateHandler { s with realTimeEnabled := b } ns =
      { s with realTimeEnabled := b, stats := ns } :=
  rfl

/-- Claim C2: for a matching incoming record, the fast-path visible-list
update of the `newLog` handler (prepend, keep at most `limit` entries)
agrees with the generic recompute on the new state (filter the full
history, truncate to `limit`), provided the prior visible list was itself
the generic recompute of the prior history and `limit` is positive as the
data model requires. -/
theorem fast_path_consistent (s : AppState) (r : LogRecord)
    (hrt : s.realTimeEnabled = true)
    (hlim : 1 ≤ s.filters.limit)
    (hm : logMatchesFilters s.filters r = true)
    (hinv : s.filteredLogs =
      (applyFilters s.filters s.logs).take s.filters.limit) :
    (newLogHandler s r).filteredLogs =
      (settle (newLogHandler s r)).filteredLogs := by
  obtain ⟨k, hk⟩ : ∃ k, s.filters.limit = k + 1 :=
    ⟨s.filters.limit - 1, by omega⟩
  have h1 : ((s.filters.limit : Int) - 1) = (k : Int) := by
    rw [hk]; push_cast; ring
  simp only [newLogHandler, hrt, hm, if_true, settle]
  rw [hinv, h1, jsSlice_nonneg _ _ (by exact_mod_cast Nat.zero_le k)]
  simp only [Int.toNat_natCast]
  rw [applyFilters_cons_of_match _ _ _ hm, hk, List.take_take]
  simp

/-- Claim C7: with a positive `limit` as the data model requires, the
length of the visible slice stays at most `filters.limit` after the
generic recompute as well as after the fast-path `newLog` update,
whenever it was within the bound before. -/
theorem visible_length_le_limit (s : AppState) (r : LogRecord)
    (hlim : 1 ≤ s.filters.limit)
    (hprev : s.filteredLogs.length ≤ s.filters.limit) :
    (settle s).filteredLogs.length ≤ s.filters.limit ∧
    (newLogHandler s r).filteredLogs.length ≤ s.filters.limit := by
  constructor
  · simp [settle, List.length_take]
  · cases hb : s.realTimeEnabled
    · simpa [newLogHandler, hb] using hprev
    · by_cases hm : logMatchesFilters s.filters r = true
      · obtain ⟨k, hk⟩ : ∃ k, s.filters.limit = k + 1 :=
          ⟨s.filters.limit - 1, by omega⟩
        have h1 : ((s.filters.limit : Int) - 1) = (k : Int) := by
          rw [hk]; push_cast; ring
        simp only [newLogHandler, hb, hm, if_true]
        rw [h1, jsSlice_nonneg _ _ (by exact_mod_cast Nat.zero_le k)]
        simp only [Int.toNat_natCast, List.length_cons, List.length_take, hk]
        omega
      · simpa [newLogHandler, hb, hm] using hprev

/-! ## Concrete states for witnesses -/

/-- A pushed ERROR record from the auth service. -/
def recError : LogRecord := ⟨1, 100, "ERROR", "auth", "Auth failed"⟩

/-- An INFO record already in the store. -/
def recInfo1 : LogRecord := ⟨3, 1, "INFO", "auth", "User login"⟩

/-- A freshly pushed INFO record. -/
def recInfo2 : LogRecord := ⟨4, 2, "INFO", "auth", "User logout"⟩

/-- A session with the real-time toggle disabled. -/
def stateOff : AppState :=
  ⟨[], [], ⟨0, 0, 0, 0, 0⟩, ⟨"", "", "", 50, 1⟩, false, false, ⟨1, 1, 0⟩⟩

/-- A live session filtered to level INFO. -/
def stateOn : AppState :=
  ⟨[], [], ⟨0, 0, 0, 0, 0⟩, ⟨"INFO", "", "", 50, 1⟩, false, true, ⟨1, 1, 0⟩⟩

/-- A live session filtered to level INFO with one matching record already
visible and `limit = 2`. -/
def stateLive : AppState :=
  ⟨[recInfo1], [recInfo1], ⟨1, 0, 0, 1, 0⟩, ⟨"INFO", "", "", 2, 1⟩,
    false, true, ⟨1, 1, 1⟩⟩

/-- Witness for C2 at a concrete live state and matching record. -/
theorem fast_path_consistent_witness :
    (newLogHandler stateLive recInfo2).filteredLogs =
      (settle (newLogHandler stateLive recInfo2)).filteredLogs :=
  fast_path_consistent stateLive recInfo2 rfl (by decide) (by decide) (by decide)

/-- Witness for C5: a pushed record is dropped while real-time is off. -/
theorem newLog_dropped_when_disabled_witness :
    newLogHandler stateOff recError = stateOff :=
  newLog_dropped_when_disabled stateOff recError rfl

/-- Witness for C6: an ERROR record pushed under a level=INFO filter enters
the history but not the settled visible slice. -/
theorem newLog_prepend_unconditional_witness :
    (newLogHandler stateOn recError).logs = recError :: stateOn.logs ∧
    (settle (newLogHandler stateOn recError)).filteredLogs =
      (settle stateOn).filteredLogs :=
  ⟨(newLog_prepend_unconditional stateOn recError rfl).1,
   (newLog_prepend_unconditional stateOn recError rfl).2 (by decide)⟩

/-- Witness for C7 at a concrete live state. -/
theorem visible_length_le_limit_witness :
    (settle stateLive).filteredLogs.length ≤ stateLive.filters.limit ∧
    (newLogHandler stateLive recInfo2).filteredLogs.length ≤
      stateLive.filters.limit :=
  visible_length_le_limit stateLive recInfo2 (by decide) (by decide)
